import Mathlib

/-!
Shallow embedding of the OTP verification flow of the hono-better-auth
backend (src/src/index.ts). Timestamps are modelled as `Nat` milliseconds
since the epoch; the two relevant tables (`verification` and `user`) are
lists of rows; each HTTP handler becomes a pure function from the request
data and the database state to the new database state and the JSON
response. Randomness (`Math.random`), the generated UUID, and the
success/failure of the outbound email call are passed in as explicit
parameters.
-/

namespace HonoBetterAuth

/-- A row of the `verification` table: `id`, `identifier` (email),
`value` (the code), `expiresAt` (absolute timestamp in ms). -/
structure VerificationRow where
  id : String
  identifier : String
  value : String
  expiresAt : Nat
deriving DecidableEq, Repr

/-- The fields of the `user` table relevant to the OTP flow. -/
structure UserRow where
  email : String
  emailVerified : Bool
deriving DecidableEq, Repr

/-- The persistent state touched by the OTP lifecycle: the `user` table
and the `verification` table. -/
structure DbState where
  users : List UserRow
  verifications : List VerificationRow
deriving DecidableEq, Repr

/-- The JSON response of a handler: `ok status message success` for the
success envelope `\x7bmessage, success\x7d`, `err status error` for the
error envelope `\x7berror\x7d`. -/
inductive ApiResponse where
  | ok (status : Nat) (message : String) (success : Bool)
  | err (status : Nat) (error : String)
deriving DecidableEq, Repr

/-- The drizzle `where` condition of the verify-OTP select:
`identifier = email AND value = code AND expiresAt > now`. -/
def verificationMatches (now : Nat) (email code : String)
    (v : VerificationRow) : Bool :=
  v.identifier == email && v.value == code && decide (now < v.expiresAt)

/-- The `POST /api/verify-otp` handler (src/src/index.ts lines 141-179):
select a row matching identifier/value/unexpired with `limit 1`; if none,
respond 400 "Invalid or expired verification code"; otherwise set
`emailVerified = true` on every user row with this email, delete every
verification row with this identifier, and respond 200 with
`success: true`. -/
def verifyOTP (now : Nat) (email code : String) (st : DbState) :
    DbState × ApiResponse :=
  let verificationRecord :=
    (st.verifications.filter (verificationMatches now email code)).take 1
  if verificationRecord.length = 0 then
    (st, .err 400 "Invalid or expired verification code")
  else
    let users := st.users.map fun u =>
      if u.email == email then { u with emailVerified := true } else u
    let verifications :=
      st.verifications.filter fun v => !(v.identifier == email)
    ({ users := users, verifications := verifications },
     .ok 200 "Email verified successfully!" true)

/-- The OTP generation `Math.floor(100000 + Math.random() * 900000)`:
`Math.random()` returns a real in `[0, 1)`, so the floor ranges exactly
over `100000, ..., 999999`. The draw is modelled by a natural number `r`;
`r % 900000` ranges over exactly the offsets the JS expression can
produce. -/
def genCode (r : Nat) : Nat :=
  100000 + r % 900000

/-- The OTP time-to-live used at insertion: `10 * 60 * 1000` ms. -/
def otpTTL : Nat := 10 * 60 * 1000

/-- The `POST /api/resend-otp` handler (src/src/index.ts lines 182-226):
look up the user by email with `limit 1` (404 "User not found" if absent,
400 "Email already verified" if already verified); otherwise generate a
code from the random draw `r`, delete every verification row for this
identifier, insert a new row with id `uuid`, value `(genCode r).repr` and
`expiresAt = now + 10 minutes`, then send the email. A throw from the
email send is caught by the surrounding try/catch, which responds 500
"Failed to resend verification code" — after the table was already
mutated. `emailOk` tells whether the send succeeds. -/
def resendOTP (now r : Nat) (uuid : String) (emailOk : Bool)
    (email : String) (st : DbState) : DbState × ApiResponse :=
  let existingUser := (st.users.filter fun u => u.email == email).take 1
  match existingUser with
  | [] => (st, .err 404 "User not found")
  | u :: _ =>
    if u.emailVerified then
      (st, .err 400 "Email already verified")
    else
      let code := genCode r
      let verifications :=
        st.verifications.filter fun v => !(v.identifier == email)
      let newRow : VerificationRow :=
        { id := uuid, identifier := email, value := Nat.repr code,
          expiresAt := now + otpTTL }
      let st2 : DbState :=
        { st with verifications := verifications ++ [newRow] }
      if emailOk then
        (st2, .ok 200 "Verification code resent successfully!" true)
      else
        (st2, .err 500 "Failed to resend verification code")

/-- The outcome of `db.delete(verification).where(lt(expiresAt, now))`:
on success the rows with `expiresAt < now` (strict!) are gone; a storage
failure is an error carrying a message. -/
def sweepDelete (fail : Bool) (now : Nat) (tbl : List VerificationRow) :
    Except String (List VerificationRow) :=
  if fail then .error "storage error"
  else .ok (tbl.filter fun v => !(decide (v.expiresAt < now)))

/-- `cleanupExpiredVerifications` (src/src/index.ts lines 29-37): runs the
delete of rows with `expiresAt < now` inside try/catch; on success logs a
cleanup message, on failure logs the error and swallows it, so the
function always resolves normally (`Except.ok`) with the resulting table
and the log line. On failure the table is left as it was. -/
def cleanupExpiredVerifications (fail : Bool) (now : Nat)
    (tbl : List VerificationRow) :
    Except String (List VerificationRow × String) :=
  match sweepDelete fail now tbl with
  | .ok tbl2 => .ok (tbl2, "Cleaned up expired verification codes")
  | .error e => .ok (tbl, "Error cleaning up expired verifications: " ++ e)

/-- The table after a successful sweep at time `now` (the `.ok` branch of
`sweepDelete`). -/
def sweepTable (now : Nat) (tbl : List VerificationRow) :
    List VerificationRow :=
  tbl.filter fun v => !(decide (v.expiresAt < now))

/-- Concrete unverified user used in witnesses. -/
def exUserA : UserRow := { email := "a@x.com", emailVerified := false }

/-- Concrete valid verification row used in witnesses. -/
def exRowA : VerificationRow :=
  { id := "id1", identifier := "a@x.com", value := "123456", expiresAt := 1000 }

/-- Concrete state with one unverified user and one valid code. -/
def exSt : DbState := { users := [exUserA], verifications := [exRowA] }

/-- Concrete state with one unverified user and no codes. -/
def exSt0 : DbState := { users := [exUserA], verifications := [] }

/-- Concrete row whose expiry equals the sweep instant. -/
def exRowEdge : VerificationRow :=
  { id := "id2", identifier := "b@x.com", value := "222222", expiresAt := 5 }

lemma toDigitsCore_length_le (b : Nat) :
    ∀ (fuel n : Nat) (ds : List Char),
      ds.length ≤ (Nat.toDigitsCore b fuel n ds).length := by
  intro fuel
  induction fuel with
  | zero => intro n ds; simp [Nat.toDigitsCore]
  | succ f ih =>
    intro n ds
    simp only [Nat.toDigitsCore]
    split
    · simp
    · exact le_trans (by simp) (ih _ _)

lemma toDigitsCore_length_lower (b : Nat) (hb : 2 ≤ b) :
    ∀ (e fuel n : Nat) (ds : List Char), b ^ e ≤ n → e < fuel →
      ds.length + e + 1 ≤ (Nat.toDigitsCore b fuel n ds).length := by
  intro e
  induction e with
  | zero =>
    intro fuel n ds hn hf
    obtain ⟨f, rfl⟩ := Nat.exists_eq_succ_of_ne_zero (Nat.pos_iff_ne_zero.mp hf)
    simp only [Nat.toDigitsCore]
    split
    · simp
    · exact le_trans (by simp) (toDigitsCore_length_le b f _ _)
  | succ e ih =>
    intro fuel n ds hn hf
    obtain ⟨f, rfl⟩ : ∃ f, fuel = f + 1 :=
      Nat.exists_eq_succ_of_ne_zero (by omega)
    have hdiv : b ^ e ≤ n / b := by
      rw [Nat.le_div_iff_mul_le (by omega)]
      calc b ^ e * b = b ^ (e + 1) := (pow_succ b e).symm
        _ ≤ n := hn
    have hne : n / b ≠ 0 := by
      have : 0 < b ^ e := Nat.pos_pow_of_pos e (by omega)
      omega
    simp only [Nat.toDigitsCore]
    rw [if_neg hne]
    have := ih f (n / b) (Nat.digitChar (n % b) :: ds) hdiv
      (Nat.lt_of_succ_lt_succ hf)
    simp only [List.length_cons] at this
    omega


lemma toDigits_length_lower (b n e : Nat) (hb : 2 ≤ b) (h : b ^ e ≤ n) :
    e + 1 ≤ (Nat.toDigits b n).length := by
  have h1 : e < 2 ^ e := Nat.lt_two_pow e
  have h2 : (2 : Nat) ^ e ≤ b ^ e := Nat.pow_le_pow_left hb e
  have hfuel : e < n + 1 := by omega
  have := toDigitsCore_length_lower b hb e (n + 1) n [] h hfuel
  simpa [Nat.toDigits] using this

/-- The decimal string of any `n` with `100000 ≤ n ≤ 999999` has exactly
six characters. -/
lemma repr_length_six (n : Nat) (h1 : 100000 ≤ n) (h2 : n ≤ 999999) :
    (Nat.repr n).length = 6 := by
  have upper : (Nat.repr n).length ≤ 6 :=
    Nat.repr_length n 6 (by norm_num) (by omega)
  have lower : 6 ≤ (Nat.toDigits 10 n).length := by
    have : (10 : Nat) ^ 5 ≤ n := by norm_num; omega
    simpa using toDigits_length_lower 10 n 5 (by norm_num) this
  have hrepr : (Nat.repr n).length = (Nat.toDigits 10 n).length := by
    simp [Nat.repr, String.length, List.asString]
  omega

lemma verifyOTP_not_found (now : Nat) (email code : String) (st : DbState)
    (h : st.verifications.filter (verificationMatches now email code) = []) :
    verifyOTP now email code st =
      (st, .err 400 "Invalid or expired verification code") := by
  simp [verifyOTP, h]

lemma verifyOTP_found (now : Nat) (email code : String) (st : DbState)
    (h : st.verifications.filter (verificationMatches now email code) ≠ []) :
    verifyOTP now email code st =
      ({ users := st.users.map fun u =>
           if u.email == email then { u with emailVerified := true } else u,
         verifications :=
           st.verifications.filter fun v => !(v.identifier == email) },
       .ok 200 "Email verified successfully!" true) := by
  have hlen : (st.verifications.filter
      (verificationMatches now email code)).length ≠ 0 := by
    simpa [List.length_eq_zero] using h
  simp only [verifyOTP, List.length_take]
  rw [if_neg (by omega)]

lemma resendOTP_user_state (now r : Nat) (uuid : String) (emailOk : Bool)
    (email : String) (st : DbState) (u : UserRow) (rest : List UserRow)
    (hu : st.users.filter (fun x => x.email == email) = u :: rest)
    (hv : u.emailVerified = false) :
    resendOTP now r uuid emailOk email st =
      ({ users := st.users,
         verifications :=
           (st.verifications.filter fun v => !(v.identifier == email)) ++
             [⟨uuid, email, Nat.repr (genCode r), now + otpTTL⟩] },
       if emailOk then .ok 200 "Verification code resent successfully!" true
       else .err 500 "Failed to resend verification code") := by
  simp only [resendOTP, hu, List.take, hv]
  cases emailOk <;> rfl

lemma resendOTP_no_user (now r : Nat) (uuid : String) (emailOk : Bool)
    (email : String) (st : DbState)
    (hu : st.users.filter (fun x => x.email == email) = []) :
    resendOTP now r uuid emailOk email st =
      (st, .err 404 "User not found") := by
  simp [resendOTP, hu]

lemma resendOTP_verified_user (now r : Nat) (uuid : String) (emailOk : Bool)
    (email : String) (st : DbState) (u : UserRow) (rest : List UserRow)
    (hu : st.users.filter (fun x => x.email == email) = u :: rest)
    (hv : u.emailVerified = true) :
    resendOTP now r uuid emailOk email st =
      (st, .err 400 "Email already verified") := by
  simp [resendOTP, hu, List.take, hv]

lemma filter_matches_ne_nil (now : Nat) (email code : String) (st : DbState)
    (h : ∃ v ∈ st.verifications,
      v.identifier = email ∧ v.value = code ∧ now < v.expiresAt) :
    st.verifications.filter (verificationMatches now email code) ≠ [] := by
  obtain ⟨v, hv, h1, h2, h3⟩ := h
  intro h0
  have hmem : v ∈ st.verifications.filter (verificationMatches now email code) := by
    rw [List.mem_filter]
    exact ⟨hv, by simp [verificationMatches, h1, h2, h3]⟩
  rw [h0] at hmem
  exact absurd hmem (List.not_mem_nil v)

/-- C1: when a verification row with the given identifier and code exists
and is unexpired (`now < expiresAt`), the verify-OTP handler responds
200 with `success: true`, every user row with that email ends up with
`emailVerified = true`, and every verification row for that identifier
(matched or not) is deleted. -/
theorem c1_validate_success (now : Nat) (email code : String) (st : DbState)
    (h : ∃ v ∈ st.verifications,
      v.identifier = email ∧ v.value = code ∧ now < v.expiresAt) :
    (verifyOTP now email code st).2 =
      ApiResponse.ok 200 "Email verified successfully!" true ∧
    (∀ u ∈ (verifyOTP now email code st).1.users,
      u.email = email → u.emailVerified = true) ∧
    (verifyOTP now email code st).1.verifications =
      st.verifications.filter (fun v => !(v.identifier == email)) := by
  rw [verifyOTP_found now email code st (filter_matches_ne_nil now email code st h)]
  refine ⟨rfl, ?_, rfl⟩
  intro u hu hemail
  simp only [List.mem_map] at hu
  obtain ⟨u0, hu0, rfl⟩ := hu
  by_cases hcase : (u0.email == email) = true
  · simp [hcase]
  · rw [if_neg hcase] at hemail ⊢
    exact absurd (by simp [hemail]) hcase

/-- C1 witness: at a concrete state with one valid code, validation
succeeds, verifies the user, and clears the identifier's rows. -/
theorem c1_witness :
    (verifyOTP 0 "a@x.com" "123456" exSt).2 =
      ApiResponse.ok 200 "Email verified successfully!" true ∧
    (∀ u ∈ (verifyOTP 0 "a@x.com" "123456" exSt).1.users,
      u.email = "a@x.com" → u.emailVerified = true) ∧
    (verifyOTP 0 "a@x.com" "123456" exSt).1.verifications =
      exSt.verifications.filter (fun v => !(v.identifier == "a@x.com")) :=
  c1_validate_success 0 "a@x.com" "123456" exSt (by decide)

/-- C2: when no verification row matches identifier, value and unexpired
expiry — wrong code and expired code alike — the verify-OTP handler
returns the one error response 400 "Invalid or expired verification
code" and leaves the entire database state unchanged. -/
theorem c2_validate_reject (now : Nat) (email code : String) (st : DbState)
    (h : ∀ v ∈ st.verifications,
      ¬(v.identifier = email ∧ v.value = code ∧ now < v.expiresAt)) :
    verifyOTP now email code st =
      (st, ApiResponse.err 400 "Invalid or expired verification code") := by
  apply verifyOTP_not_found
  rw [List.filter_eq_nil_iff]
  intro v hv
  have := h v hv
  simp only [verificationMatches, Bool.and_eq_true, beq_iff_eq,
    decide_eq_true_eq, not_and]
  tauto

/-- C2 witness: a correct code past its expiry is rejected with the same
error as any wrong code, mutating nothing. -/
theorem c2_witness :
    verifyOTP 2000 "a@x.com" "123456" exSt =
      (exSt, ApiResponse.err 400 "Invalid or expired verification code") :=
  c2_validate_reject 2000 "a@x.com" "123456" exSt (by decide)

/-- C9: validation never checks that the user exists — with a valid code
but no user row for the email, the handler still responds 200 with
`success: true`, and the user-table update touches zero rows. -/
theorem c9_validate_without_user (now : Nat) (email code : String)
    (st : DbState)
    (hrow : ∃ v ∈ st.verifications,
      v.identifier = email ∧ v.value = code ∧ now < v.expiresAt)
    (huser : ∀ u ∈ st.users, u.email ≠ email) :
    (verifyOTP now email code st).2 =
      ApiResponse.ok 200 "Email verified successfully!" true ∧
    (verifyOTP now email code st).1.users = st.users := by
  rw [verifyOTP_found now email code st
    (filter_matches_ne_nil now email code st hrow)]
  refine ⟨rfl, ?_⟩
  have : ∀ u ∈ st.users,
      (if u.email == email then { u with emailVerified := true } else u) = u := by
    intro u hu
    rw [if_neg]
    simp [huser u hu]
  calc st.users.map (fun u =>
        if u.email == email then { u with emailVerified := true } else u)
      = st.users.map id := List.map_congr_left this
    _ = st.users := List.map_id st.users

/-- C9 witness: a valid code for an email with no user row still verifies
with 200 and leaves the (empty-match) user table untouched. -/
theorem c9_witness :
    (verifyOTP 0 "b@x.com" "999999"
      ⟨[exUserA], [⟨"id3", "b@x.com", "999999", 50⟩]⟩).2 =
      ApiResponse.ok 200 "Email verified successfully!" true ∧
    (verifyOTP 0 "b@x.com" "999999"
      ⟨[exUserA], [⟨"id3", "b@x.com", "999999", 50⟩]⟩).1.users = [exUserA] :=
  c9_validate_without_user 0 "b@x.com" "999999"
    ⟨[exUserA], [⟨"id3", "b@x.com", "999999", 50⟩]⟩ (by decide) (by decide)

/-- C6: resend fails 404 "User not found" when no user row carries the
email, and 400 "Email already verified" when the looked-up user is
already verified; in both cases the whole state — verification table
included — is returned unchanged and no code is stored. -/
theorem c6_resend_preconditions (now r : Nat) (uuid email : String)
    (emailOk : Bool) (st : DbState) :
    ((∀ u ∈ st.users, u.email ≠ email) →
      resendOTP now r uuid emailOk email st =
        (st, ApiResponse.err 404 "User not found")) ∧
    (∀ u rest, st.users.filter (fun x => x.email == email) = u :: rest →
      u.emailVerified = true →
      resendOTP now r uuid emailOk email st =
        (st, ApiResponse.err 400 "Email already verified")) := by
  constructor
  · intro h
    apply resendOTP_no_user
    rw [List.filter_eq_nil_iff]
    intro u hu
    simp [h u hu]
  · intro u rest hu hv
    exact resendOTP_verified_user now r uuid emailOk email st u rest hu hv

/-- C6 witness: resend for an unknown email yields 404, resend for an
already-verified user yields 400, both without touching state. -/
theorem c6_witness :
    resendOTP 0 0 "u1" true "c@x.com" ⟨[⟨"b@x.com", true⟩], []⟩ =
      (⟨[⟨"b@x.com", true⟩], []⟩, ApiResponse.err 404 "User not found") ∧
    resendOTP 0 0 "u1" true "b@x.com" ⟨[⟨"b@x.com", true⟩], []⟩ =
      (⟨[⟨"b@x.com", true⟩], []⟩,
        ApiResponse.err 400 "Email already verified") :=
  ⟨(c6_resend_preconditions 0 0 "u1" "c@x.com" true
      ⟨[⟨"b@x.com", true⟩], []⟩).1 (by decide),
   (c6_resend_preconditions 0 0 "u1" "b@x.com" true
      ⟨[⟨"b@x.com", true⟩], []⟩).2 ⟨"b@x.com", true⟩ [] (by decide) rfl⟩

/-- C10: when the user exists unverified but the email send fails, the
caller gets the 500 error, yet the verification table has already been
mutated: the identifier's prior rows are gone and the new code row is
stored. -/
theorem c10_resend_email_failure (now r : Nat) (uuid email : String)
    (st : DbState) (u : UserRow) (rest : List UserRow)
    (hu : st.users.filter (fun x => x.email == email) = u :: rest)
    (hv : u.emailVerified = false) :
    resendOTP now r uuid false email st =
      ({ users := st.users,
         verifications :=
           (st.verifications.filter fun v => !(v.identifier == email)) ++
             [⟨uuid, email, Nat.repr (genCode r), now + otpTTL⟩] },
       ApiResponse.err 500 "Failed to resend verification code") := by
  simpa using resendOTP_user_state now r uuid false email st u rest hu hv

/-- C10 witness: at a concrete state, an email-send failure returns 500
while the old row was deleted and the new row persists. -/
theorem c10_witness :
    resendOTP 0 7 "u9" false "a@x.com" exSt =
      ({ users := [exUserA],
         verifications := [⟨"u9", "a@x.com", Nat.repr (genCode 7), otpTTL⟩] },
       ApiResponse.err 500 "Failed to resend verification code") := by
  have := c10_resend_email_failure 0 7 "u9" "a@x.com" exSt exUserA []
    (by decide) rfl
  simpa [exSt] using this

/-- C8: the sweep never propagates a failure: for every outcome of the
underlying delete — success or storage error — it resolves normally
(`Except.ok`), and in the error case it leaves the table untouched and
logs the error. -/
theorem c8_sweep_never_fails (fail : Bool) (now : Nat)
    (tbl : List VerificationRow) :
    (∃ out, cleanupExpiredVerifications fail now tbl = Except.ok out) ∧
    cleanupExpiredVerifications true now tbl =
      Except.ok (tbl,
        "Error cleaning up expired verifications: storage error") := by
  refine ⟨?_, rfl⟩
  cases fail
  · exact ⟨_, rfl⟩
  · exact ⟨_, rfl⟩

/-- C4: whenever resend responds with the success envelope, the resulting
verification table holds exactly one row for the identifier: the prior
rows were deleted and the single fresh row appended. -/
theorem c4_resend_unique_row (now r : Nat) (uuid email : String)
    (emailOk : Bool) (st : DbState) (s : Nat) (m : String) (b : Bool)
    (h : (resendOTP now r uuid emailOk email st).2 = ApiResponse.ok s m b) :
    ((resendOTP now r uuid emailOk email st).1.verifications.filter
      (fun v => v.identifier == email)).length = 1 ∧
    (resendOTP now r uuid emailOk email st).1.verifications =
      (st.verifications.filter fun v => !(v.identifier == email)) ++
        [⟨uuid, email, Nat.repr (genCode r), now + otpTTL⟩] := by
  cases hu : st.users.filter (fun x => x.email == email) with
  | nil =>
    rw [resendOTP_no_user now r uuid emailOk email st hu] at h
    exact absurd h (by simp)
  | cons u rest =>
    cases hv : u.emailVerified with
    | true =>
      rw [resendOTP_verified_user now r uuid emailOk email st u rest hu hv] at h
      exact absurd h (by simp)
    | false =>
      rw [resendOTP_user_state now r uuid emailOk email st u rest hu hv]
      refine ⟨?_, rfl⟩
      simp [List.filter_append, List.filter_filter]

/-- C4 witness: a concrete successful resend leaves exactly one row for
the identifier. -/
theorem c4_witness :
    ((resendOTP 0 7 "u9" true "a@x.com" exSt).1.verifications.filter
      (fun v => v.identifier == "a@x.com")).length = 1 ∧
    (resendOTP 0 7 "u9" true "a@x.com" exSt).1.verifications =
      (exSt.verifications.filter fun v => !(v.identifier == "a@x.com")) ++
        [⟨"u9", "a@x.com", Nat.repr (genCode 7), 0 + otpTTL⟩] :=
  c4_resend_unique_row 0 7 "u9" "a@x.com" true exSt 200
    "Verification code resent successfully!" true (by decide)

/-- C7: whenever resend responds with the success envelope, the inserted
row (the last row of the table) carries the decimal string of the drawn
code, that code lies in 100000–999999 for every draw, its decimal string
has exactly six characters, and the expiry is `now` plus ten minutes. -/
theorem c7_issued_row_shape (now r : Nat) (uuid email : String)
    (emailOk : Bool) (st : DbState) (s : Nat) (m : String) (b : Bool)
    (h : (resendOTP now r uuid emailOk email st).2 = ApiResponse.ok s m b) :
    (resendOTP now r uuid emailOk email st).1.verifications.getLast? =
      some ⟨uuid, email, Nat.repr (genCode r), now + otpTTL⟩ ∧
    100000 ≤ genCode r ∧ genCode r ≤ 999999 ∧
    (Nat.repr (genCode r)).length = 6 := by
  have hmod : r % 900000 < 900000 := Nat.mod_lt r (by norm_num)
  have hlo : 100000 ≤ genCode r := by unfold genCode; omega
  have hhi : genCode r ≤ 999999 := by unfold genCode; omega
  refine ⟨?_, hlo, hhi, repr_length_six _ hlo hhi⟩
  cases hu : st.users.filter (fun x => x.email == email) with
  | nil =>
    rw [resendOTP_no_user now r uuid emailOk email st hu] at h
    exact absurd h (by simp)
  | cons u rest =>
    cases hv : u.emailVerified with
    | true =>
      rw [resendOTP_verified_user now r uuid emailOk email st u rest hu hv] at h
      exact absurd h (by simp)
    | false =>
      rw [resendOTP_user_state now r uuid emailOk email st u rest hu hv]
      exact List.getLast?_concat _

/-- C7 witness: a concrete successful resend stores code "100007" with
six characters and expiry ten minutes out. -/
theorem c7_witness :
    (resendOTP 0 7 "u9" true "a@x.com" exSt).1.verifications.getLast? =
      some ⟨"u9", "a@x.com", Nat.repr (genCode 7), 0 + otpTTL⟩ ∧
    100000 ≤ genCode 7 ∧ genCode 7 ≤ 999999 ∧
    (Nat.repr (genCode 7)).length = 6 :=
  c7_issued_row_shape 0 7 "u9" "a@x.com" true exSt 200
    "Verification code resent successfully!" true (by decide)

/-- C3 counterexample: the sweep condition is the strict
`expiresAt < now`, so a row whose expiry equals the sweep instant is NOT
deleted, refuting "every row with expiresAt <= t is removed". -/
theorem c3_counterexample :
    exRowEdge.expiresAt ≤ 5 ∧
    cleanupExpiredVerifications false 5 [exRowEdge] =
      Except.ok ([exRowEdge], "Cleaned up expired verification codes") :=
  ⟨by decide, rfl⟩

/-- C3 amended: a successful sweep at time `t` deletes exactly the rows
with `expiresAt` strictly below `t` — a row survives iff its expiry is at
or after `t` — and sweeping twice at the same time changes nothing the
second time. -/
theorem c3_amended_strict_sweep (now : Nat) (tbl : List VerificationRow)
    (v : VerificationRow) :
    cleanupExpiredVerifications false now tbl =
      Except.ok (sweepTable now tbl,
        "Cleaned up expired verification codes") ∧
    (v ∈ sweepTable now tbl ↔ v ∈ tbl ∧ now ≤ v.expiresAt) ∧
    sweepTable now (sweepTable now tbl) = sweepTable now tbl := by
  refine ⟨rfl, ?_, ?_⟩
  · simp [sweepTable, List.mem_filter, Nat.not_lt]
  · simp [sweepTable, List.filter_filter]

/-- C5 counterexample: the two draws can produce the same code; issuing
twice with equal draws makes "the first code" equal to the second, and
validating with the first code then succeeds instead of failing with the
invalid-or-expired error. -/
theorem c5_counterexample :
    (resendOTP 0 0 "u1" true "a@x.com" exSt0).2 =
      ApiResponse.ok 200 "Verification code resent successfully!" true ∧
    (resendOTP 0 0 "u2" true "a@x.com"
      (resendOTP 0 0 "u1" true "a@x.com" exSt0).1).2 =
      ApiResponse.ok 200 "Verification code resent successfully!" true ∧
    (verifyOTP 0 "a@x.com" (Nat.repr (genCode 0))
        ((resendOTP 0 0 "u2" true "a@x.com"
          (resendOTP 0 0 "u1" true "a@x.com" exSt0).1).1)).2 =
      ApiResponse.ok 200 "Email verified successfully!" true := by
  refine ⟨rfl, rfl, ?_⟩
  decide

/-- C5 amended: after two successive successful issues for the same
identifier whose generated code strings differ, validating with the
second code succeeds (while it is unexpired) and validating with the
first code fails with the invalid-or-expired error at every validation
time — in particular even before the first code's original expiry. -/
theorem c5_amended_second_code_wins (t1 t2 t3 r1 r2 : Nat)
    (u1 u2 email : String) (st : DbState) (u : UserRow)
    (rest : List UserRow)
    (hu : st.users.filter (fun x => x.email == email) = u :: rest)
    (hv : u.emailVerified = false)
    (hc : Nat.repr (genCode r1) ≠ Nat.repr (genCode r2))
    (ht : t3 < t2 + otpTTL) :
    (verifyOTP t3 email (Nat.repr (genCode r2))
        ((resendOTP t2 r2 u2 true email
          ((resendOTP t1 r1 u1 true email st).1)).1)).2 =
      ApiResponse.ok 200 "Email verified successfully!" true ∧
    verifyOTP t3 email (Nat.repr (genCode r1))
        ((resendOTP t2 r2 u2 true email
          ((resendOTP t1 r1 u1 true email st).1)).1) =
      ((resendOTP t2 r2 u2 true email
          ((resendOTP t1 r1 u1 true email st).1)).1,
       ApiResponse.err 400 "Invalid or expired verification code") := by
  have h1 := resendOTP_user_state t1 r1 u1 true email st u rest hu hv
  have hst1 : (resendOTP t1 r1 u1 true email st).1 =
      { users := st.users,
        verifications :=
          (st.verifications.filter fun v => !(v.identifier == email)) ++
            [⟨u1, email, Nat.repr (genCode r1), t1 + otpTTL⟩] } := by
    rw [h1]
  have hu1 : ((resendOTP t1 r1 u1 true email st).1).users.filter
      (fun x => x.email == email) = u :: rest := by
    rw [hst1]; exact hu
  have h2 := resendOTP_user_state t2 r2 u2 true email
    ((resendOTP t1 r1 u1 true email st).1) u rest hu1 hv
  have hst2 : ((resendOTP t2 r2 u2 true email
      ((resendOTP t1 r1 u1 true email st).1)).1).verifications =
      (st.verifications.filter fun v => !(v.identifier == email)) ++
        [⟨u2, email, Nat.repr (genCode r2), t2 + otpTTL⟩] := by
    rw [h2, hst1]
    simp [List.filter_append, List.filter_filter]
  have hne : ((resendOTP t2 r2 u2 true email
      ((resendOTP t1 r1 u1 true email st).1)).1).verifications.filter
        (verificationMatches t3 email (Nat.repr (genCode r2))) ≠ [] := by
    rw [hst2]
    intro hcontra
    rw [List.filter_append, List.append_eq_nil] at hcontra
    have := hcontra.2
    simp [verificationMatches, ht] at this
  have hnil : ((resendOTP t2 r2 u2 true email
      ((resendOTP t1 r1 u1 true email st).1)).1).verifications.filter
        (verificationMatches t3 email (Nat.repr (genCode r1))) = [] := by
    rw [hst2, List.filter_append]
    rw [List.append_eq_nil]
    constructor
    · rw [List.filter_filter, List.filter_eq_nil_iff]
      intro a _
      simp only [Bool.and_eq_true, Bool.not_eq_true', beq_eq_false_iff_ne,
        ne_eq, verificationMatches, beq_iff_eq]
      tauto
    · rw [List.filter_eq_nil_iff]
      intro a ha
      rw [List.mem_singleton] at ha
      subst ha
      intro hcontra
      simp only [verificationMatches, Bool.and_eq_true, beq_iff_eq,
        decide_eq_true_eq] at hcontra
      exact hc hcontra.1.2.symm
  constructor
  · rw [verifyOTP_found _ _ _ _ hne]
  · exact verifyOTP_not_found _ _ _ _ hnil

/-- C5 amended witness: with draws 0 and 1 the codes are "100000" and
"100001"; after the two issues, "100001" validates and "100000" is
rejected although its original expiry has not passed. -/
theorem c5_amended_witness :
    (verifyOTP 0 "a@x.com" (Nat.repr (genCode 1))
        ((resendOTP 0 1 "u2" true "a@x.com"
          ((resendOTP 0 0 "u1" true "a@x.com" exSt0).1)).1)).2 =
      ApiResponse.ok 200 "Email verified successfully!" true ∧
    verifyOTP 0 "a@x.com" (Nat.repr (genCode 0))
        ((resendOTP 0 1 "u2" true "a@x.com"
          ((resendOTP 0 0 "u1" true "a@x.com" exSt0).1)).1) =
      ((resendOTP 0 1 "u2" true "a@x.com"
          ((resendOTP 0 0 "u1" true "a@x.com" exSt0).1)).1,
       ApiResponse.err 400 "Invalid or expired verification code") :=
  c5_amended_second_code_wins 0 0 0 0 1 "u1" "u2" "a@x.com" exSt0 exUserA []
    (by decide) rfl (by decide) (by decide)

end HonoBetterAuth
